import Mathlib

/-!
Shallow embedding of the DVR Recording Engine of the ViniPlay server
(`server.js`): the job store rows, the in-memory scheduler/process-registry
state, and the engine operations `startRecording`, the ffmpeg `close` and
`error` handlers, `scheduleDvrJob`, `loadAndScheduleAllDvrJobs`, and the
DVR HTTP handlers that drive them.

Timestamps are modelled as integers (milliseconds since the epoch, the value
of `new Date(x).getTime()`); the database TEXT columns holding ISO strings
are modelled by those integers directly, since the code only ever compares
and subtracts them.  JavaScript string operations used by the recorder
(`String.prototype.replace` with a global literal pattern, `split(' ')`)
are modelled by executable character-list functions with the same semantics.
-/

namespace ViniPlay

/-- Status column of a `dvr_jobs` row: scheduled, recording, completed, error, cancelled. -/
inductive JobStatus where
  | scheduled
  | recording
  | completed
  | error
  | cancelled
deriving DecidableEq, Repr

/-- Row of the `dvr_jobs` table (column order follows the CREATE TABLE statement). -/
structure Job where
  id : Nat
  user_id : Nat
  channelId : String
  channelName : String
  programTitle : String
  startTime : Int
  endTime : Int
  status : JobStatus
  ffmpeg_pid : Option Nat
  filePath : Option String
  profileId : Option String
  userAgentId : Option String
  preBufferMinutes : Int
  postBufferMinutes : Int
deriving DecidableEq, Repr

/-- Row of the `dvr_recordings` table (the autoincrement primary key is omitted;
no modelled operation reads it). -/
structure Recording where
  job_id : Nat
  user_id : Nat
  channelName : String
  programTitle : String
  startTime : Int
  durationSeconds : Int
  fileSizeBytes : Nat
  filePath : String
deriving DecidableEq, Repr

/-- Entry of `settings.dvr.recordingProfiles`. -/
structure RecProfile where
  id : String
  command : String
deriving DecidableEq, Repr

/-- Entry of `settings.userAgents`. -/
structure UserAgent where
  id : String
  value : String
deriving DecidableEq, Repr

/-- The `settings.dvr` object. -/
structure DvrSettings where
  preBufferMinutes : Int
  postBufferMinutes : Int
  activeRecordingProfileId : Option String
  recordingProfiles : List RecProfile
deriving DecidableEq, Repr

/-- The slice of the settings object read by the DVR engine. -/
structure Settings where
  dvr : DvrSettings
  userAgents : List UserAgent
  activeUserAgentId : Option String
deriving DecidableEq, Repr

/-- Channel as produced by `parseM3U`: the fields `startRecording` reads. -/
structure Channel where
  id : String
  url : String
deriving DecidableEq, Repr

/-- Environment read (not written) by the engine: the merged M3U channel list
and the current settings, both re-read at the time `startRecording` runs. -/
structure RecEnv where
  channels : List Channel
  settings : Settings
deriving DecidableEq, Repr

/-- Externally observable actions emitted by an engine operation. -/
inductive Event where
  | startInvoked (jobId : Nat)
  | spawned (jobId : Nat) (exe : String) (argv : List String)
  | sigterm (pid : Nat)
deriving DecidableEq, Repr

/-- Global state of the engine: the two database tables, the two in-memory
maps (`runningFFmpegProcesses`, `activeDvrJobs`), the armed stop triggers
(the anonymous `schedule.scheduleJob(endTime, ...)` handles, which the code
never stores), and the recordings directory contents (path to byte size). -/
structure DvrState where
  jobs : List Job
  recordings : List Recording
  registry : List (Nat × Nat)
  startTimers : List Nat
  stopTimers : List Nat
  files : List (String × Nat)
deriving DecidableEq, Repr

/-- Lookup in an association list keyed by job id (JavaScript `Map.get`). -/
def lookupA (k : Nat) (m : List (Nat × Nat)) : Option Nat :=
  (m.find? (fun p => p.1 == k)).map Prod.snd

/-- Insert or overwrite in an association list (JavaScript `Map.set`). -/
def setA (k v : Nat) : List (Nat × Nat) → List (Nat × Nat)
  | [] => [(k, v)]
  | p :: rest => if p.1 == k then (k, v) :: rest else p :: setA k v rest

/-- Remove a key from an association list (JavaScript `Map.delete`). -/
def delA (k : Nat) (m : List (Nat × Nat)) : List (Nat × Nat) :=
  m.filter (fun p => ! (p.1 == k))

/-- Result of `fs.stat` against the modelled directory contents: `some size`
when the file exists, `none` when stat reports an error. -/
def fileStat (pathName : String) (files : List (String × Nat)) : Option Nat :=
  (files.find? (fun p => p.1 == pathName)).map Prod.snd

/-- Effect of `fs.unlink` on the modelled directory contents. -/
def unlinkFile (pathName : String) (files : List (String × Nat)) : List (String × Nat) :=
  files.filter (fun p => ! (p.1 == pathName))

/-- A single-row UPDATE keyed by job id (`UPDATE dvr_jobs SET ... WHERE id = ?`). -/
def updateRows (jobId : Nat) (f : Job → Job) (jobs : List Job) : List Job :=
  jobs.map (fun j => if j.id = jobId then f j else j)

/-- Model of `UPDATE dvr_jobs SET status = ? WHERE id = ?`. -/
def setStatusOnly (jobId : Nat) (st : JobStatus) : List Job → List Job :=
  updateRows jobId (fun j => { j with status := st })

/-- Model of `UPDATE dvr_jobs SET status = ?, ffmpeg_pid = NULL WHERE id = ?`. -/
def setStatusClearPid (jobId : Nat) (st : JobStatus) : List Job → List Job :=
  updateRows jobId (fun j => { j with status := st, ffmpeg_pid := none })

/-- Model of `UPDATE dvr_jobs SET status = 'recording', ffmpeg_pid = ?, filePath = ? WHERE id = ?`. -/
def setRecordingRow (jobId pid : Nat) (fp : String) : List Job → List Job :=
  updateRows jobId
    (fun j => { j with status := JobStatus.recording, ffmpeg_pid := some pid, filePath := some fp })

/-- Model of `UPDATE dvr_jobs SET status = 'cancelled' WHERE id = ? AND user_id = ?`. -/
def setCancelledOwned (jobId userId : Nat) (jobs : List Job) : List Job :=
  jobs.map (fun j =>
    if j.id = jobId ∧ j.user_id = userId then { j with status := JobStatus.cancelled } else j)

/-- Model of `UPDATE dvr_jobs SET status = 'error' WHERE status = 'recording'`
run by `loadAndScheduleAllDvrJobs` at startup. -/
def reconcileRecordingRows (jobs : List Job) : List Job :=
  jobs.map (fun j => if j.status = JobStatus.recording then { j with status := JobStatus.error } else j)

/-- Helper of `replaceAll`, structurally recursive on the scanned list; the
first argument is the number of already-matched characters still to skip. -/
def replaceAllAux (pat rep : List Char) : Nat → List Char → List Char
  | _, [] => []
  | Nat.succ k, _ :: rest => replaceAllAux pat rep k rest
  | 0, c :: rest =>
      if pat ≠ [] ∧ pat.isPrefixOf (c :: rest) then
        rep ++ replaceAllAux pat rep (pat.length - 1) rest
      else
        c :: replaceAllAux pat rep 0 rest

/-- Replacement of every non-overlapping occurrence of a literal pattern,
left to right: the semantics of JavaScript `s.replace(/pat/g, rep)` for a
literal pattern.  The empty pattern is never used by the engine. -/
def replaceAll (pat rep s : List Char) : List Char :=
  replaceAllAux pat rep 0 s

/-- Splitting on every occurrence of a separator character: the semantics of
JavaScript `s.split(' ')` for the single-space separator. -/
def splitOnChar (sep : Char) : List Char → List (List Char)
  | [] => [[]]
  | c :: rest =>
    if c = sep then
      [] :: splitOnChar sep rest
    else
      match splitOnChar sep rest with
      | [] => [[c]]
      | t :: ts => (c :: t) :: ts

/-- The character kept unchanged by the filename sanitizer
`programTitle.replace(/[^a-z0-9]/gi, '_').toLowerCase()`: ASCII letters are
lowercased, digits kept, every other character becomes an underscore. -/
def sanitizeChar (c : Char) : Char :=
  if c.isAlpha ∨ c.isDigit then c.toLower else '_'

/-- The recordings directory (`const DVR_DIR = '/dvr'`). -/
def DVR_DIR : String := "/dvr"

/-- Derivation of the output file path of a job:
`path.join(DVR_DIR, job.id + '_' + sanitizedTitle + '.mp4')`. -/
def fullFilePathFor (job : Job) : String :=
  DVR_DIR ++ "/" ++ toString job.id ++ "_" ++ String.mk (job.programTitle.data.map sanitizeChar) ++ ".mp4"

/-- Materialization of the command template: the chained global replaces of
`{streamUrl}`, `{userAgent}` and `{filePath}`, in the order the code applies them. -/
def substTemplate (command streamUrl userAgentValue filePath : String) : String :=
  String.mk (replaceAll "{filePath}".data filePath.data
    (replaceAll "{userAgent}".data userAgentValue.data
      (replaceAll "{streamUrl}".data streamUrl.data command.data)))

/-- Tokenization of the materialized command:
`commandTemplate.split(' ').filter(arg => arg)`. -/
def tokenize (s : String) : List String :=
  ((splitOnChar ' ' s.data).map (fun cs => String.mk cs)).filter (fun a => ! (a == ""))

/-- An argument vector handed to `child_process.spawn`; `shell` is false because
the code calls `spawn(command, args)` with no `shell` option, so the template is
never evaluated by a shell. -/
structure SpawnCall where
  exe : String
  argv : List String
  shell : Bool
deriving DecidableEq, Repr

/-- Construction of the spawn call from the materialized template:
`args = split/filter; command = args.shift(); spawn(command, args)`. -/
def spawnCallFor (commandTemplate : String) : SpawnCall :=
  let args := tokenize commandTemplate
  { exe := args.headD "", argv := args.tail, shell := false }

/-- Math.round((endTime - startTime) / 1000): the duration stored in a
completed-recording row. -/
def durationSecondsOf (job : Job) : Int :=
  (job.endTime - job.startTime + 500).fdiv 1000

/-- Resolution of the channel performed by `startRecording`:
`allChannels.find(c => c.id === job.channelId)` over the parsed merged M3U. -/
def findChannel (env : RecEnv) (job : Job) : Option Channel :=
  env.channels.find? (fun c => c.id == job.channelId)

/-- Resolution of the recording profile performed by `startRecording`:
`settings.dvr.recordingProfiles.find(p => p.id === settings.dvr.activeRecordingProfileId)`. -/
def findActiveRecProfile (env : RecEnv) : Option RecProfile :=
  env.settings.dvr.recordingProfiles.find?
    (fun p => some p.id == env.settings.dvr.activeRecordingProfileId)

/-- Resolution of the user agent performed by `startRecording`:
`settings.userAgents.find(ua => ua.id === job.userAgentId)`. -/
def findJobUserAgent (env : RecEnv) (job : Job) : Option UserAgent :=
  env.settings.userAgents.find? (fun ua => some ua.id == job.userAgentId)

/-- The body of `startRecording(job)`: resolve the channel from the merged M3U,
the recording profile by the settings' `activeRecordingProfileId`, and the user
agent by the job's `userAgentId`; on any failed lookup set the row to error with
`ffmpeg_pid` cleared and stop; otherwise spawn, register the pid and flip the
row to recording with the output path.  `pid` is the OS pid the spawn returns. -/
def startRecording (env : RecEnv) (pid : Nat) (job : Job) (s : DvrState) :
    DvrState × List Event :=
  match findChannel env job with
  | none =>
      ({ s with jobs := setStatusClearPid job.id JobStatus.error s.jobs },
       [Event.startInvoked job.id])
  | some channel =>
    match findActiveRecProfile env with
    | none =>
        ({ s with jobs := setStatusClearPid job.id JobStatus.error s.jobs },
         [Event.startInvoked job.id])
    | some recProfile =>
      match findJobUserAgent env job with
      | none =>
          ({ s with jobs := setStatusClearPid job.id JobStatus.error s.jobs },
           [Event.startInvoked job.id])
      | some userAgent =>
          let fullFilePath := fullFilePathFor job
          let commandTemplate := substTemplate recProfile.command channel.url userAgent.value fullFilePath
          let sc := spawnCallFor commandTemplate
          ({ s with
              registry := setA job.id pid s.registry,
              jobs := setRecordingRow job.id pid fullFilePath s.jobs },
           [Event.startInvoked job.id, Event.spawned job.id sc.exe sc.argv])

/-- The `ffmpeg.on('close')` handler registered by `startRecording`: drop the
registry entry, stat the output file; on exit code 0 with an existing file of
size > 0 insert a completed-recording row and flip the job to completed,
otherwise flip it to error and, when the stat succeeded, unlink the file.
`code` is `none` when the process was terminated by a signal. -/
def ffmpegOnClose (job : Job) (fullFilePath : String) (code : Option Int) (s : DvrState) :
    DvrState :=
  let s1 := { s with registry := delA job.id s.registry }
  match fileStat fullFilePath s1.files with
  | some size =>
      if code = some 0 ∧ 0 < size then
        { s1 with
            recordings := s1.recordings ++
              [{ job_id := job.id, user_id := job.user_id, channelName := job.channelName,
                 programTitle := job.programTitle, startTime := job.startTime,
                 durationSeconds := durationSecondsOf job, fileSizeBytes := size,
                 filePath := fullFilePath }],
            jobs := setStatusClearPid job.id JobStatus.completed s1.jobs }
      else
        { s1 with
            jobs := setStatusClearPid job.id JobStatus.error s1.jobs,
            files := unlinkFile fullFilePath s1.files }
  | none =>
      { s1 with jobs := setStatusClearPid job.id JobStatus.error s1.jobs }

/-- The `ffmpeg.on('error')` handler (spawn failure): drop the registry entry
and flip the job to error with `ffmpeg_pid` cleared. -/
def ffmpegOnError (job : Job) (s : DvrState) : DvrState :=
  { s with
      registry := delA job.id s.registry,
      jobs := setStatusClearPid job.id JobStatus.error s.jobs }

/-- The body of the armed stop trigger: look the job id up in
`runningFFmpegProcesses` and, if present, `process.kill(pid, 'SIGTERM')`. -/
def stopTriggerFire (jobId : Nat) (s : DvrState) : DvrState × List Event :=
  match lookupA jobId s.registry with
  | some pid => (s, [Event.sigterm pid])
  | none => (s, [])

/-- The body of `scheduleDvrJob(job)`: cancel a previously armed start trigger
for the id; if `endTime <= now` flip a still-scheduled job to error and arm
nothing; otherwise arm a start trigger (or start immediately when the start
time has passed) and always arm a fresh stop trigger for `endTime`. -/
def scheduleDvrJob (env : RecEnv) (pid : Nat) (now : Int) (job : Job) (s : DvrState) :
    DvrState × List Event :=
  let s0 := { s with startTimers := s.startTimers.filter (fun i => ! (i == job.id)) }
  if job.endTime ≤ now then
    (if job.status = JobStatus.scheduled then
      { s0 with jobs := setStatusOnly job.id JobStatus.error s0.jobs }
     else s0, [])
  else
    let r :=
      if now < job.startTime then
        ({ s0 with startTimers := s0.startTimers ++ [job.id] }, ([] : List Event))
      else
        startRecording env pid job s0
    ({ r.1 with stopTimers := r.1.stopTimers ++ [job.id] }, r.2)

/-- The body of `loadAndScheduleAllDvrJobs()`: first flip every `recording`
row to `error`, then fetch the rows with status `scheduled` and pass each to
`scheduleDvrJob`.  `pidFor` supplies the OS pid a spawn for a given job would
return. -/
def loadAndScheduleAllDvrJobs (env : RecEnv) (pidFor : Nat → Nat) (now : Int)
    (s : DvrState) : DvrState × List Event :=
  let s1 := { s with jobs := reconcileRecordingRows s.jobs }
  (s1.jobs.filter (fun j => j.status == JobStatus.scheduled)).foldl
    (fun acc j =>
      let r := scheduleDvrJob env (pidFor j.id) now j acc.1
      (r.1, acc.2 ++ r.2))
    (s1, [])

/-- The `DELETE /api/dvr/jobs/:id` handler: cancel and drop the entry of
`activeDvrJobs` for the id if present, run
`UPDATE dvr_jobs SET status = 'cancelled' WHERE id = ? AND user_id = ?`, and
respond `{success: true}`.  The returned boolean is the reported success. -/
def deleteDvrJobRoute (jobId userId : Nat) (s : DvrState) :
    DvrState × List Event × Bool :=
  let s1 := { s with startTimers := s.startTimers.filter (fun i => ! (i == jobId)) }
  let s2 := { s1 with jobs := setCancelledOwned jobId userId s1.jobs }
  (s2, [], true)

/-- The body of `POST /api/dvr/schedule`: compute the buffered window, insert a
`scheduled` row snapshotting `activeRecordingProfileId` and `activeUserAgentId`,
and immediately call `scheduleDvrJob` on the new row.  `newId` is the
autoincrement id the insert assigns. -/
def postScheduleRoute (env : RecEnv) (userId : Nat)
    (channelId channelName programTitle : String) (programStart programStop : Int)
    (newId : Nat) (pid : Nat) (now : Int) (s : DvrState) :
    DvrState × List Event × Job :=
  let preBuffer := env.settings.dvr.preBufferMinutes * 60 * 1000
  let postBuffer := env.settings.dvr.postBufferMinutes * 60 * 1000
  let newJob : Job :=
    { id := newId, user_id := userId, channelId := channelId, channelName := channelName,
      programTitle := programTitle,
      startTime := programStart - preBuffer, endTime := programStop + postBuffer,
      status := JobStatus.scheduled, ffmpeg_pid := none, filePath := none,
      profileId := env.settings.dvr.activeRecordingProfileId,
      userAgentId := env.settings.activeUserAgentId,
      preBufferMinutes := env.settings.dvr.preBufferMinutes,
      postBufferMinutes := env.settings.dvr.postBufferMinutes }
  let s1 := { s with jobs := s.jobs ++ [newJob] }
  let r := scheduleDvrJob env pid now newJob s1
  (r.1, r.2, newJob)

/-- Invariant of a job list: `ffmpeg_pid` is non-null exactly on rows whose
status is `recording`. -/
def jobsPidInv (jobs : List Job) : Prop :=
  ∀ j ∈ jobs, j.ffmpeg_pid.isSome = true ↔ j.status = JobStatus.recording

instance (jobs : List Job) : Decidable (jobsPidInv jobs) := by
  unfold jobsPidInv
  infer_instance

/-- State form of the pid/status invariant of the spec's data model. -/
def pidStatusInv (s : DvrState) : Prop :=
  jobsPidInv s.jobs

instance (s : DvrState) : Decidable (pidStatusInv s) := by
  unfold pidStatusInv
  infer_instance

/-- Job ids present in the Process Registry (`runningFFmpegProcesses`). -/
def registryIds (s : DvrState) : List Nat :=
  s.registry.map Prod.fst

/-- Ids of the rows of a job list whose status is `recording`. -/
def recIdsOf (jobs : List Job) : List Nat :=
  (jobs.filter (fun j => j.status == JobStatus.recording)).map Job.id

/-- Ids of the Job Store rows whose status is `recording`. -/
def recordingIds (s : DvrState) : List Nat :=
  recIdsOf s.jobs

/-- Process-registry consistency: the registry holds exactly the ids of the
rows with status `recording`. -/
def registryMatchesRecording (s : DvrState) : Prop :=
  ∀ n : Nat, n ∈ registryIds s ↔ n ∈ recordingIds s

instance (s : DvrState) : Decidable (registryMatchesRecording s) :=
  decidable_of_iff
    ((∀ n ∈ registryIds s, n ∈ recordingIds s) ∧ ∀ n ∈ recordingIds s, n ∈ registryIds s)
    (by
      constructor
      · intro h n
        exact ⟨fun hn => h.1 n hn, fun hn => h.2 n hn⟩
      · intro h
        exact ⟨fun n hn => (h n).mp hn, fun n hn => (h n).mpr hn⟩)

/-- Image of a row under a keyed update, when the key matches. -/
theorem updated_mem (jobId : Nat) (f : Job → Job) {jobs : List Job} {j : Job}
    (hj : j ∈ jobs) (hid : j.id = jobId) : f j ∈ updateRows jobId f jobs := by
  unfold updateRows
  exact List.mem_map.mpr ⟨j, hj, by simp [hid]⟩

/-- A keyed update leaves rows with a different id untouched. -/
theorem updated_mem_ne (jobId : Nat) (f : Job → Job) {jobs : List Job} {j : Job}
    (hj : j ∈ jobs) (hid : j.id ≠ jobId) : j ∈ updateRows jobId f jobs := by
  unfold updateRows
  exact List.mem_map.mpr ⟨j, hj, by simp [hid]⟩

/-- Unlinking a path makes a later stat of that path fail. -/
theorem fileStat_unlinkFile (fp : String) (files : List (String × Nat)) :
    fileStat fp (unlinkFile fp files) = none := by
  unfold fileStat unlinkFile
  rw [List.find?_eq_none.mpr]
  · rfl
  · intro x hx hbeq
    have hmem := (List.mem_filter.mp hx).2
    rw [hbeq] at hmem
    simp at hmem

/-- Value of `startRecording` on every failed resolution: the row goes to
error with the pid cleared, nothing is spawned and nothing else changes. -/
theorem startRecording_error_case (env : RecEnv) (pid : Nat) (job : Job) (s : DvrState)
    (h : findChannel env job = none ∨ findActiveRecProfile env = none ∨
      findJobUserAgent env job = none) :
    startRecording env pid job s =
      ({ s with jobs := setStatusClearPid job.id JobStatus.error s.jobs },
       [Event.startInvoked job.id]) := by
  rcases hch : findChannel env job with _ | ch
  · simp only [startRecording, hch]
  · rcases hpr : findActiveRecProfile env with _ | pr
    · simp only [startRecording, hch, hpr]
    · rcases hua : findJobUserAgent env job with _ | ua
      · simp only [startRecording, hch, hpr, hua]
      · rcases h with h | h | h
        · rw [hch] at h
          exact absurd h (by simp)
        · rw [hpr] at h
          exact absurd h (by simp)
        · rw [hua] at h
          exact absurd h (by simp)

/-- Value of `startRecording` when all three resolutions succeed: the pid is
registered, the row flips to recording, and the materialized command is
spawned. -/
theorem startRecording_success_case (env : RecEnv) (pid : Nat) (job : Job) (s : DvrState)
    (ch : Channel) (pr : RecProfile) (ua : UserAgent)
    (hch : findChannel env job = some ch) (hpr : findActiveRecProfile env = some pr)
    (hua : findJobUserAgent env job = some ua) :
    startRecording env pid job s =
      ({ s with
          registry := setA job.id pid s.registry,
          jobs := setRecordingRow job.id pid (fullFilePathFor job) s.jobs },
       [Event.startInvoked job.id,
        Event.spawned job.id
          (spawnCallFor (substTemplate pr.command ch.url ua.value (fullFilePathFor job))).exe
          (spawnCallFor (substTemplate pr.command ch.url ua.value (fullFilePathFor job))).argv]) := by
  simp only [startRecording, hch, hpr, hua]

/-- `startRecording` never touches the armed start triggers. -/
theorem startRecording_startTimers (env : RecEnv) (pid : Nat) (job : Job) (s : DvrState) :
    (startRecording env pid job s).1.startTimers = s.startTimers := by
  unfold startRecording
  split
  · rfl
  · split
    · rfl
    · split
      · rfl
      · rfl

/-- `startRecording` never touches the armed stop triggers. -/
theorem startRecording_stopTimers (env : RecEnv) (pid : Nat) (job : Job) (s : DvrState) :
    (startRecording env pid job s).1.stopTimers = s.stopTimers := by
  unfold startRecording
  split
  · rfl
  · split
    · rfl
    · split
      · rfl
      · rfl

/-- Every call of `scheduleDvrJob` for a job whose end time is still in the
future arms one additional stop trigger for that job and disarms none. -/
theorem scheduleDvrJob_stopTimers (env : RecEnv) (pid : Nat) (now : Int) (job : Job)
    (s : DvrState) (hfut : now < job.endTime) :
    (scheduleDvrJob env pid now job s).1.stopTimers = s.stopTimers ++ [job.id] := by
  simp only [scheduleDvrJob, if_neg (not_le.mpr hfut)]
  split
  · rfl
  · simp [startRecording_stopTimers]

/-- After any call of `scheduleDvrJob`, at most one start trigger is armed for
the scheduled job (the call first disarms a pre-existing one). -/
theorem scheduleDvrJob_startTimers_count (env : RecEnv) (pid : Nat) (now : Int) (job : Job)
    (s : DvrState) :
    (scheduleDvrJob env pid now job s).1.startTimers.count job.id ≤ 1 := by
  have hfil : (s.startTimers.filter (fun i => ! (i == job.id))).count job.id = 0 := by
    apply List.count_eq_zero_of_not_mem
    intro hmem
    have h2 := (List.mem_filter.mp hmem).2
    simp at h2
  simp only [scheduleDvrJob]
  split
  · split
    · simp [hfil]
    · simp [hfil]
  · split
    · simp [List.count_append, hfil]
    · simp [startRecording_startTimers, hfil]

/-- A concrete scheduled job used by the concrete instances below. -/
def jobA : Job :=
  { id := 1, user_id := 1, channelId := "ch1", channelName := "Channel One",
    programTitle := "Show", startTime := 1000, endTime := 2000,
    status := JobStatus.scheduled, ffmpeg_pid := none, filePath := none,
    profileId := some "p1", userAgentId := some "ua1",
    preBufferMinutes := 1, postBufferMinutes := 2 }

/-- An environment with no channels and no configured profiles or user agents. -/
def envNoConfig : RecEnv :=
  { channels := [],
    settings :=
      { dvr := { preBufferMinutes := 1, postBufferMinutes := 2,
                 activeRecordingProfileId := none, recordingProfiles := [] },
        userAgents := [], activeUserAgentId := none } }

/-- C1: for every DVR job whose transcoder process terminates, the exit handler
sets the job to `completed` if and only if the process exited with code 0 and
the output file exists with size greater than zero (inserting a Completed
Recording row in that case); in every other case it sets the job to `error`,
and if an output file was produced on disk it is deleted. -/
theorem C1_exit_handler (job : Job) (fp : String) (code : Option Int) (s : DvrState)
    (j : Job) (hj : j ∈ s.jobs) (hid : j.id = job.id) :
    ∃ j2 ∈ (ffmpegOnClose job fp code s).jobs, j2.id = job.id ∧
      (j2.status = JobStatus.completed ↔
        (code = some 0 ∧ ∃ sz, fileStat fp s.files = some sz ∧ 0 < sz)) ∧
      (j2.status = JobStatus.completed ∨ j2.status = JobStatus.error) ∧
      (j2.status = JobStatus.completed →
        ∃ r ∈ (ffmpegOnClose job fp code s).recordings, r.job_id = job.id ∧ r.filePath = fp) ∧
      (j2.status = JobStatus.error → fileStat fp (ffmpegOnClose job fp code s).files = none) := by
  rcases hstat : fileStat fp s.files with _ | sz
  · simp only [ffmpegOnClose, hstat]
    refine ⟨{ j with status := JobStatus.error, ffmpeg_pid := none },
      updated_mem job.id _ hj hid, hid, ?_, ?_, ?_, ?_⟩
    · simp
    · simp
    · simp
    · intro _
      trivial
  · simp only [ffmpegOnClose, hstat]
    by_cases hcond : code = some 0 ∧ 0 < sz
    · rw [if_pos hcond]
      refine ⟨{ j with status := JobStatus.completed, ffmpeg_pid := none },
        updated_mem job.id _ hj hid, hid, ?_, ?_, ?_, ?_⟩
      · constructor
        · intro _
          exact ⟨hcond.1, sz, rfl, hcond.2⟩
        · intro _
          rfl
      · simp
      · intro _
        refine ⟨_, List.mem_append_right _ (List.mem_singleton.mpr rfl), rfl, rfl⟩
      · simp
    · rw [if_neg hcond]
      refine ⟨{ j with status := JobStatus.error, ffmpeg_pid := none },
        updated_mem job.id _ hj hid, hid, ?_, ?_, ?_, ?_⟩
      · constructor
        · intro h
          simp at h
        · rintro ⟨hc0, sz2, hs2, hpos⟩
          have hsz : sz = sz2 := by injection hs2
          rw [← hsz] at hpos
          exact absurd ⟨hc0, hpos⟩ hcond
      · simp
      · simp
      · intro _
        exact fileStat_unlinkFile fp s.files

/-- C1 witness: concrete successful exit with a non-empty output file. -/
theorem C1_exit_handler_witness :
    jobA ∈ ({ jobs := [jobA], recordings := [], registry := [(1, 7)],
              startTimers := [], stopTimers := [],
              files := [("/dvr/1_show.mp4", 100)] } : DvrState).jobs ∧
    (∃ j2 ∈ (ffmpegOnClose jobA "/dvr/1_show.mp4" (some 0)
        { jobs := [jobA], recordings := [], registry := [(1, 7)],
          startTimers := [], stopTimers := [],
          files := [("/dvr/1_show.mp4", 100)] }).jobs, j2.id = jobA.id ∧
      (j2.status = JobStatus.completed ↔
        (some (0 : Int) = some 0 ∧ ∃ sz,
          fileStat "/dvr/1_show.mp4" [("/dvr/1_show.mp4", 100)] = some sz ∧ 0 < sz)) ∧
      (j2.status = JobStatus.completed ∨ j2.status = JobStatus.error) ∧
      (j2.status = JobStatus.completed →
        ∃ r ∈ (ffmpegOnClose jobA "/dvr/1_show.mp4" (some 0)
            { jobs := [jobA], recordings := [], registry := [(1, 7)],
              startTimers := [], stopTimers := [],
              files := [("/dvr/1_show.mp4", 100)] }).recordings,
          r.job_id = jobA.id ∧ r.filePath = "/dvr/1_show.mp4") ∧
      (j2.status = JobStatus.error →
        fileStat "/dvr/1_show.mp4" (ffmpegOnClose jobA "/dvr/1_show.mp4" (some 0)
            { jobs := [jobA], recordings := [], registry := [(1, 7)],
              startTimers := [], stopTimers := [],
              files := [("/dvr/1_show.mp4", 100)] }).files = none)) :=
  ⟨by decide, C1_exit_handler jobA "/dvr/1_show.mp4" (some 0) _ jobA (by decide) rfl⟩

/-- C8: for every job passed to schedule whose endTime is not after the current
time, the job's status is set to `error` when it is still `scheduled`, no start
or stop trigger is armed, and no transcoder process is ever launched for it. -/
theorem C8_past_window (env : RecEnv) (pid : Nat) (now : Int) (job : Job) (s : DvrState)
    (j : Job) (hj : j ∈ s.jobs) (hid : j.id = job.id) (hpast : job.endTime ≤ now) :
    (job.status = JobStatus.scheduled →
      ∃ j2 ∈ (scheduleDvrJob env pid now job s).1.jobs,
        j2.id = job.id ∧ j2.status = JobStatus.error) ∧
    job.id ∉ (scheduleDvrJob env pid now job s).1.startTimers ∧
    (scheduleDvrJob env pid now job s).1.stopTimers = s.stopTimers ∧
    (scheduleDvrJob env pid now job s).2 = [] := by
  constructor
  · intro hsched
    simp only [scheduleDvrJob, if_pos hpast, if_pos hsched]
    exact ⟨{ j with status := JobStatus.error }, updated_mem job.id _ hj hid, hid, rfl⟩
  constructor
  · simp only [scheduleDvrJob, if_pos hpast]
    by_cases hst : job.status = JobStatus.scheduled
    · rw [if_pos hst]
      intro hmem
      have h2 := (List.mem_filter.mp hmem).2
      simp at h2
    · rw [if_neg hst]
      intro hmem
      have h2 := (List.mem_filter.mp hmem).2
      simp at h2
  constructor
  · simp only [scheduleDvrJob, if_pos hpast]
    by_cases hst : job.status = JobStatus.scheduled
    · rw [if_pos hst]
    · rw [if_neg hst]
  · simp [scheduleDvrJob, if_pos hpast]

/-- C8 witness: a concrete job whose window is entirely in the past. -/
theorem C8_past_window_witness :
    jobA ∈ ({ jobs := [jobA], recordings := [], registry := [], startTimers := [1],
              stopTimers := [], files := [] } : DvrState).jobs ∧
    jobA.endTime ≤ 5000 ∧
    ((jobA.status = JobStatus.scheduled →
      ∃ j2 ∈ (scheduleDvrJob envNoConfig 9 5000 jobA
          { jobs := [jobA], recordings := [], registry := [], startTimers := [1],
            stopTimers := [], files := [] }).1.jobs,
        j2.id = jobA.id ∧ j2.status = JobStatus.error) ∧
    jobA.id ∉ (scheduleDvrJob envNoConfig 9 5000 jobA
        { jobs := [jobA], recordings := [], registry := [], startTimers := [1],
          stopTimers := [], files := [] }).1.startTimers ∧
    (scheduleDvrJob envNoConfig 9 5000 jobA
        { jobs := [jobA], recordings := [], registry := [], startTimers := [1],
          stopTimers := [], files := [] }).1.stopTimers = [] ∧
    (scheduleDvrJob envNoConfig 9 5000 jobA
        { jobs := [jobA], recordings := [], registry := [], startTimers := [1],
          stopTimers := [], files := [] }).2 = []) :=
  ⟨by decide, by decide,
    C8_past_window envNoConfig 9 5000 jobA _ jobA (by decide) rfl (by decide)⟩

/-- C10: a DELETE of a job by an authenticated non-owner leaves every job row
unchanged, still cancels the armed start trigger for that id, and reports
success. -/
theorem C10_nonowner_delete (jobId userId : Nat) (s : DvrState)
    (hnotmine : ∀ j ∈ s.jobs, j.id = jobId → j.user_id ≠ userId) :
    (deleteDvrJobRoute jobId userId s).1.jobs = s.jobs ∧
    jobId ∉ (deleteDvrJobRoute jobId userId s).1.startTimers ∧
    (deleteDvrJobRoute jobId userId s).2.2 = true := by
  refine ⟨?_, ?_, rfl⟩
  · show setCancelledOwned jobId userId s.jobs = s.jobs
    unfold setCancelledOwned
    have hcongr : s.jobs.map (fun j =>
        if j.id = jobId ∧ j.user_id = userId then { j with status := JobStatus.cancelled } else j)
        = s.jobs.map id := by
      apply List.map_congr_left
      intro j hj
      have : ¬(j.id = jobId ∧ j.user_id = userId) := by
        rintro ⟨h1, h2⟩
        exact hnotmine j hj h1 h2
      rw [if_neg this]
      rfl
    rw [hcongr, List.map_id]
  · intro hmem
    have := (List.mem_filter.mp hmem).2
    simp at this

/-- A concrete state with one scheduled job (owner 1) and an armed start trigger. -/
def c10State : DvrState :=
  { jobs := [jobA], recordings := [], registry := [], startTimers := [1],
    stopTimers := [], files := [] }

/-- C10 witness: user 2 deletes the job owned by user 1. -/
theorem C10_nonowner_delete_witness :
    (∀ j ∈ c10State.jobs, j.id = 1 → j.user_id ≠ 2) ∧
    ((deleteDvrJobRoute 1 2 c10State).1.jobs = c10State.jobs ∧
      (1 : Nat) ∉ (deleteDvrJobRoute 1 2 c10State).1.startTimers ∧
      (deleteDvrJobRoute 1 2 c10State).2.2 = true) :=
  ⟨by decide, C10_nonowner_delete 1 2 c10State (by decide)⟩

/-- A concrete job persisted mid-recording: status `recording` with a live pid. -/
def recJob : Job :=
  { jobA with status := JobStatus.recording, ffmpeg_pid := some 7,
              filePath := some "/dvr/1_show.mp4" }

/-- A concrete state whose only row is `recJob`, with the pid registered, the
stop trigger still armed, and the partial output file on disk. -/
def recState : DvrState :=
  { jobs := [recJob], recordings := [], registry := [(1, 7)], startTimers := [],
    stopTimers := [1], files := [("/dvr/1_show.mp4", 100)] }

/-- C2 counterexample: the startup reconciliation flips the `recording` row to
`error` but leaves `ffmpeg_pid` set, so the pid/status invariant, true before
`loadAndScheduleAllDvrJobs`, is false afterwards. -/
theorem C2_counterexample :
    pidStatusInv recState ∧
    ¬ pidStatusInv (loadAndScheduleAllDvrJobs envNoConfig (fun _ => 9) 0 recState).1 := by
  decide

/-- C3 counterexample: the owner cancels job 1 while it records (registry pid 7,
stop trigger armed, start trigger already fired).  The handler leaves the stop
trigger armed and emits no termination signal, contradicting the claim that it
disarms both triggers and signals the transcoder process. -/
theorem C3_counterexample :
    (deleteDvrJobRoute 1 1 recState).1.stopTimers = [1] ∧
    (deleteDvrJobRoute 1 1 recState).2.1 = [] ∧
    Event.sigterm 7 ∉ (deleteDvrJobRoute 1 1 recState).2.1 := by
  decide

/-- An environment in which the ids snapshotted on `jobA` (profile "p1", user
agent "ua1") are all resolvable, but the settings' current
`activeRecordingProfileId` is "p2", which has no profile. -/
def c4Env : RecEnv :=
  { channels := [{ id := "ch1", url := "http://host/stream" }],
    settings :=
      { dvr := { preBufferMinutes := 1, postBufferMinutes := 2,
                 activeRecordingProfileId := some "p2",
                 recordingProfiles := [{ id := "p1", command := "ffmpeg -i {streamUrl} {filePath}" }] },
        userAgents := [{ id := "ua1", value := "AgentX" }],
        activeUserAgentId := some "ua1" } }

/-- A concrete state whose only row is the scheduled `jobA`. -/
def schedState : DvrState :=
  { jobs := [jobA], recordings := [], registry := [], startTimers := [],
    stopTimers := [], files := [] }

/-- C4 counterexample: the profile id snapshotted on the job resolves, the user
agent and channel resolve, yet `startRecording` launches nothing and sets the
job to `error`, because the code looks the profile up by the settings' current
`activeRecordingProfileId` instead of the job's snapshotted `profileId`. -/
theorem C4_counterexample :
    (c4Env.settings.dvr.recordingProfiles.find? (fun p => some p.id == jobA.profileId)).isSome
      = true ∧
    (findJobUserAgent c4Env jobA).isSome = true ∧
    (findChannel c4Env jobA).isSome = true ∧
    (startRecording c4Env 9 jobA schedState).2 = [Event.startInvoked 1] ∧
    (∃ j2 ∈ (startRecording c4Env 9 jobA schedState).1.jobs,
      j2.id = 1 ∧ j2.status = JobStatus.error ∧ j2.ffmpeg_pid = none) := by
  decide

/-- C5 counterexample: scheduling the same future job twice leaves two armed
stop triggers for it, so the stop action fires twice at `endTime` — the
re-schedule disarms only the previous start trigger, never the stop trigger. -/
theorem C5_counterexample :
    ((scheduleDvrJob envNoConfig 9 0 jobA
        (scheduleDvrJob envNoConfig 9 0 jobA schedState).1).1.stopTimers.count 1) = 2 ∧
    ((scheduleDvrJob envNoConfig 9 0 jobA
        (scheduleDvrJob envNoConfig 9 0 jobA schedState).1).1.startTimers.count 1) = 1 := by
  decide

/-- C7 counterexample: registry/recording-row consistency holds before the
owner cancels the recording job, and fails afterwards: the row becomes
`cancelled` while the registry still holds its pid until the process exits. -/
theorem C7_counterexample :
    registryMatchesRecording recState ∧
    ¬ registryMatchesRecording (deleteDvrJobRoute 1 1 recState).1 := by
  decide

/-- C9 counterexample: a user-agent value containing a space is torn across two
argument positions by the whitespace tokenization, so the resolved value does
not occupy exactly the positions its placeholder occupied (7 template tokens
become 8 arguments, and the predicted safe vector is not produced). -/
theorem C9_counterexample :
    tokenize (substTemplate "ffmpeg -user_agent {userAgent} -i {streamUrl} -y {filePath}"
        "http://host/stream" "Mozilla/5.0 (X11)" "/dvr/1_show.mp4")
      = ["ffmpeg", "-user_agent", "Mozilla/5.0", "(X11)", "-i", "http://host/stream",
         "-y", "/dvr/1_show.mp4"] ∧
    (tokenize "ffmpeg -user_agent {userAgent} -i {streamUrl} -y {filePath}").length = 7 ∧
    tokenize (substTemplate "ffmpeg -user_agent {userAgent} -i {streamUrl} -y {filePath}"
        "http://host/stream" "Mozilla/5.0 (X11)" "/dvr/1_show.mp4")
      ≠ ["ffmpeg", "-user_agent", "Mozilla/5.0 (X11)", "-i", "http://host/stream",
         "-y", "/dvr/1_show.mp4"] := by
  decide

/-- C5 amended: repeated schedule calls for the same job disarm only the start
trigger armed by the previous call, so at most one start trigger stays armed;
each call arms a fresh stop trigger without disarming the previous one, so two
calls for a job with a future end time leave two armed stop triggers (two stop
events will fire). -/
theorem C5_amended (env1 env2 : RecEnv) (p1 p2 : Nat) (now : Int) (job : Job)
    (s : DvrState) (hfut : now < job.endTime) :
    (scheduleDvrJob env2 p2 now job
        (scheduleDvrJob env1 p1 now job s).1).1.stopTimers.count job.id
      = s.stopTimers.count job.id + 2 ∧
    (scheduleDvrJob env2 p2 now job
        (scheduleDvrJob env1 p1 now job s).1).1.startTimers.count job.id ≤ 1 := by
  constructor
  · rw [scheduleDvrJob_stopTimers env2 p2 now job _ hfut,
      scheduleDvrJob_stopTimers env1 p1 now job s hfut,
      List.count_append, List.count_append]
    simp
  · exact scheduleDvrJob_startTimers_count env2 p2 now job _

/-- C5 amended witness: the concrete double schedule of `jobA`. -/
theorem C5_amended_witness :
    (0 : Int) < jobA.endTime ∧
    ((scheduleDvrJob envNoConfig 9 0 jobA
        (scheduleDvrJob envNoConfig 9 0 jobA schedState).1).1.stopTimers.count jobA.id
      = schedState.stopTimers.count jobA.id + 2 ∧
    (scheduleDvrJob envNoConfig 9 0 jobA
        (scheduleDvrJob envNoConfig 9 0 jobA schedState).1).1.startTimers.count jobA.id ≤ 1) :=
  ⟨by decide, C5_amended envNoConfig envNoConfig 9 9 0 jobA schedState (by decide)⟩

/-- C3 amended: user cancellation disarms the start trigger only; the stop
trigger is not tracked by `activeDvrJobs` and stays armed, no termination
signal is sent by the handler itself, the owner's row is set to `cancelled`,
and a recording job's process is signalled only later, when the still-armed
stop trigger fires against the registry. -/
theorem C3_amended (jobId userId : Nat) (s : DvrState) (j : Job) (p : Nat)
    (hj : j ∈ s.jobs) (hid : j.id = jobId) (hu : j.user_id = userId)
    (hp : lookupA jobId s.registry = some p) :
    (deleteDvrJobRoute jobId userId s).1.startTimers
      = s.startTimers.filter (fun i => ! (i == jobId)) ∧
    (deleteDvrJobRoute jobId userId s).1.stopTimers = s.stopTimers ∧
    (deleteDvrJobRoute jobId userId s).2.1 = [] ∧
    (deleteDvrJobRoute jobId userId s).2.2 = true ∧
    { j with status := JobStatus.cancelled } ∈ (deleteDvrJobRoute jobId userId s).1.jobs ∧
    (stopTriggerFire jobId (deleteDvrJobRoute jobId userId s).1).2 = [Event.sigterm p] := by
  refine ⟨rfl, rfl, rfl, rfl, ?_, ?_⟩
  · show _ ∈ setCancelledOwned jobId userId s.jobs
    unfold setCancelledOwned
    exact List.mem_map.mpr ⟨j, hj, by rw [if_pos ⟨hid, hu⟩]⟩
  · have hreg : (deleteDvrJobRoute jobId userId s).1.registry = s.registry := rfl
    simp only [stopTriggerFire, hreg, hp]

/-- C3 amended witness: the concrete cancellation of the recording `recJob`. -/
theorem C3_amended_witness :
    recJob ∈ recState.jobs ∧ recJob.id = 1 ∧ recJob.user_id = 1 ∧
    lookupA 1 recState.registry = some 7 ∧
    ((deleteDvrJobRoute 1 1 recState).1.startTimers
        = recState.startTimers.filter (fun i => ! (i == 1)) ∧
      (deleteDvrJobRoute 1 1 recState).1.stopTimers = recState.stopTimers ∧
      (deleteDvrJobRoute 1 1 recState).2.1 = [] ∧
      (deleteDvrJobRoute 1 1 recState).2.2 = true ∧
      { recJob with status := JobStatus.cancelled } ∈ (deleteDvrJobRoute 1 1 recState).1.jobs ∧
      (stopTriggerFire 1 (deleteDvrJobRoute 1 1 recState).1).2 = [Event.sigterm 7]) :=
  ⟨by decide, by decide, by decide, by decide,
    C3_amended 1 1 recState recJob 7 (by decide) (by decide) (by decide) (by decide)⟩

/-- C4 amended: `startRecording` ignores the job's snapshotted `profileId`
entirely (its result is invariant under changing that field) and resolves the
profile by the settings' current `activeRecordingProfileId`, while the user
agent is resolved by the job's snapshotted `userAgentId`; if either resolution
fails the job is set to `error` with `ffmpeg_pid` cleared and nothing is
spawned. -/
theorem C4_amended (env : RecEnv) (pid : Nat) (job : Job) (s : DvrState)
    (p1 p2 : Option String) (j : Job) (hj : j ∈ s.jobs) (hid : j.id = job.id)
    (hfail : findActiveRecProfile env = none ∨ findJobUserAgent env job = none) :
    startRecording env pid { job with profileId := p1 } s
      = startRecording env pid { job with profileId := p2 } s ∧
    (startRecording env pid job s).2 = [Event.startInvoked job.id] ∧
    (∃ j2 ∈ (startRecording env pid job s).1.jobs,
      j2.id = job.id ∧ j2.status = JobStatus.error ∧ j2.ffmpeg_pid = none) := by
  have herr := startRecording_error_case env pid job s
    (hfail.elim (fun h => Or.inr (Or.inl h)) (fun h => Or.inr (Or.inr h)))
  refine ⟨rfl, ?_, ?_⟩
  · rw [herr]
  · rw [herr]
    exact ⟨{ j with status := JobStatus.error, ffmpeg_pid := none },
      updated_mem job.id _ hj hid, hid, rfl, rfl⟩

/-- C4 amended witness: an environment with no configured recording profiles. -/
theorem C4_amended_witness :
    jobA ∈ schedState.jobs ∧
    (findActiveRecProfile envNoConfig = none ∨ findJobUserAgent envNoConfig jobA = none) ∧
    (startRecording envNoConfig 9 { jobA with profileId := some "x" } schedState
      = startRecording envNoConfig 9 { jobA with profileId := none } schedState ∧
    (startRecording envNoConfig 9 jobA schedState).2 = [Event.startInvoked jobA.id] ∧
    (∃ j2 ∈ (startRecording envNoConfig 9 jobA schedState).1.jobs,
      j2.id = jobA.id ∧ j2.status = JobStatus.error ∧ j2.ffmpeg_pid = none)) :=
  ⟨by decide, Or.inl (by decide),
    C4_amended envNoConfig 9 jobA schedState (some "x") none jobA (by decide) rfl
      (Or.inl (by decide))⟩

/-- Updating a row's status to a non-recording value while clearing its pid
preserves the pid/status invariant. -/
theorem jobsPidInv_setStatusClearPid (jobId : Nat) (st : JobStatus)
    (hst : st ≠ JobStatus.recording) {jobs : List Job} (hinv : jobsPidInv jobs) :
    jobsPidInv (setStatusClearPid jobId st jobs) := by
  intro j2 hj2
  unfold setStatusClearPid updateRows at hj2
  rcases List.mem_map.mp hj2 with ⟨j0, hj0, rfl⟩
  by_cases h : j0.id = jobId
  · rw [if_pos h]
    simp [hst]
  · rw [if_neg h]
    exact hinv j0 hj0

/-- Flipping a row to recording while setting its pid preserves the pid/status
invariant. -/
theorem jobsPidInv_setRecordingRow (jobId pid : Nat) (fp : String) {jobs : List Job}
    (hinv : jobsPidInv jobs) : jobsPidInv (setRecordingRow jobId pid fp jobs) := by
  intro j2 hj2
  unfold setRecordingRow updateRows at hj2
  rcases List.mem_map.mp hj2 with ⟨j0, hj0, rfl⟩
  by_cases h : j0.id = jobId
  · rw [if_pos h]
    simp
  · rw [if_neg h]
    exact hinv j0 hj0

/-- Updating the status alone to a non-recording value preserves the pid/status
invariant, provided no targeted row was recording (so its pid was null). -/
theorem jobsPidInv_setStatusOnly (jobId : Nat) (st : JobStatus)
    (hst : st ≠ JobStatus.recording) {jobs : List Job}
    (hsafe : ∀ j ∈ jobs, j.id = jobId → j.status ≠ JobStatus.recording)
    (hinv : jobsPidInv jobs) : jobsPidInv (setStatusOnly jobId st jobs) := by
  intro j2 hj2
  unfold setStatusOnly updateRows at hj2
  rcases List.mem_map.mp hj2 with ⟨j0, hj0, rfl⟩
  by_cases h : j0.id = jobId
  · rw [if_pos h]
    have hpid : j0.ffmpeg_pid.isSome = false := by
      rcases hfalse : j0.ffmpeg_pid.isSome with _ | _
      · rfl
      · exact absurd ((hinv j0 hj0).mp hfalse) (hsafe j0 hj0 h)
    simp [hpid, hst]
  · rw [if_neg h]
    exact hinv j0 hj0

/-- `startRecording` preserves the pid/status invariant: every error path
clears the pid while leaving the recording status behind, and the success path
sets both together. -/
theorem startRecording_pidInv (env : RecEnv) (pid : Nat) (job : Job) (s : DvrState)
    (hinv : pidStatusInv s) : pidStatusInv (startRecording env pid job s).1 := by
  rcases hch : findChannel env job with _ | ch
  · rw [startRecording_error_case env pid job s (Or.inl hch)]
    exact jobsPidInv_setStatusClearPid job.id JobStatus.error (by simp) hinv
  · rcases hpr : findActiveRecProfile env with _ | pr
    · rw [startRecording_error_case env pid job s (Or.inr (Or.inl hpr))]
      exact jobsPidInv_setStatusClearPid job.id JobStatus.error (by simp) hinv
    · rcases hua : findJobUserAgent env job with _ | ua
      · rw [startRecording_error_case env pid job s (Or.inr (Or.inr hua))]
        exact jobsPidInv_setStatusClearPid job.id JobStatus.error (by simp) hinv
      · rw [startRecording_success_case env pid job s ch pr ua hch hpr hua]
        exact jobsPidInv_setRecordingRow job.id pid (fullFilePathFor job) hinv

/-- The exit handler preserves the pid/status invariant. -/
theorem ffmpegOnClose_pidInv (job : Job) (fp : String) (code : Option Int) (s : DvrState)
    (hinv : pidStatusInv s) : pidStatusInv (ffmpegOnClose job fp code s) := by
  rcases hstat : fileStat fp s.files with _ | sz
  · simp only [ffmpegOnClose, hstat]
    exact jobsPidInv_setStatusClearPid job.id JobStatus.error (by simp) hinv
  · simp only [ffmpegOnClose, hstat]
    by_cases hcond : code = some 0 ∧ 0 < sz
    · rw [if_pos hcond]
      exact jobsPidInv_setStatusClearPid job.id JobStatus.completed (by simp) hinv
    · rw [if_neg hcond]
      exact jobsPidInv_setStatusClearPid job.id JobStatus.error (by simp) hinv

/-- The spawn-failure handler preserves the pid/status invariant. -/
theorem ffmpegOnError_pidInv (job : Job) (s : DvrState) (hinv : pidStatusInv s) :
    pidStatusInv (ffmpegOnError job s) :=
  jobsPidInv_setStatusClearPid job.id JobStatus.error (by simp) hinv

/-- `scheduleDvrJob` preserves the pid/status invariant when the in-memory job
object agrees in status with the stored rows of its id. -/
theorem scheduleDvrJob_pidInv (env : RecEnv) (pid : Nat) (now : Int) (job : Job)
    (s : DvrState) (hinv : pidStatusInv s)
    (hagree : ∀ j2 ∈ s.jobs, j2.id = job.id → j2.status = job.status) :
    pidStatusInv (scheduleDvrJob env pid now job s).1 := by
  simp only [scheduleDvrJob]
  split
  · split
    case isTrue hsched =>
      refine jobsPidInv_setStatusOnly job.id JobStatus.error (by simp) ?_ hinv
      intro j2 hj2 hid2
      rw [hagree j2 hj2 hid2, hsched]
      simp
    case isFalse hsched =>
      exact hinv
  · split
    · exact hinv
    · exact startRecording_pidInv env pid job _ hinv

/-- C2 amended: scheduling, starting a recording, and the exit and
spawn-failure handlers all preserve the invariant that `ffmpeg_pid` is non-null
iff status is `recording`; the startup reconciliation does not: its
recording-to-error flip leaves `ffmpeg_pid` set, so any surviving recording row
(whose pid is non-null by the invariant) violates the invariant afterwards. -/
theorem C2_amended (env : RecEnv) (pid : Nat) (now : Int) (job : Job) (fp : String)
    (code : Option Int) (s : DvrState) (j : Job)
    (hinv : pidStatusInv s)
    (hagree : ∀ j2 ∈ s.jobs, j2.id = job.id → j2.status = job.status)
    (hj : j ∈ s.jobs) (hrec : j.status = JobStatus.recording) :
    pidStatusInv (startRecording env pid job s).1 ∧
    pidStatusInv (ffmpegOnClose job fp code s) ∧
    pidStatusInv (ffmpegOnError job s) ∧
    pidStatusInv (scheduleDvrJob env pid now job s).1 ∧
    ¬ pidStatusInv { s with jobs := reconcileRecordingRows s.jobs } := by
  refine ⟨startRecording_pidInv env pid job s hinv, ffmpegOnClose_pidInv job fp code s hinv,
    ffmpegOnError_pidInv job s hinv, scheduleDvrJob_pidInv env pid now job s hinv hagree, ?_⟩
  intro hpost
  have hmem : { j with status := JobStatus.error } ∈ reconcileRecordingRows s.jobs := by
    unfold reconcileRecordingRows
    exact List.mem_map.mpr ⟨j, hj, by rw [if_pos hrec]⟩
  have hiff := hpost { j with status := JobStatus.error } hmem
  have hpid : j.ffmpeg_pid.isSome = true := (hinv j hj).mpr hrec
  simp [hpid] at hiff

/-- C2 amended witness: the concrete state `recState` with its recording row. -/
theorem C2_amended_witness :
    pidStatusInv recState ∧
    (∀ j2 ∈ recState.jobs, j2.id = recJob.id → j2.status = recJob.status) ∧
    recJob ∈ recState.jobs ∧ recJob.status = JobStatus.recording ∧
    (pidStatusInv (startRecording envNoConfig 9 recJob recState).1 ∧
      pidStatusInv (ffmpegOnClose recJob "/dvr/1_show.mp4" (some 0) recState) ∧
      pidStatusInv (ffmpegOnError recJob recState) ∧
      pidStatusInv (scheduleDvrJob envNoConfig 9 0 recJob recState).1 ∧
      ¬ pidStatusInv { recState with jobs := reconcileRecordingRows recState.jobs }) :=
  ⟨by decide, by decide, by decide, by decide,
    C2_amended envNoConfig 9 0 recJob "/dvr/1_show.mp4" (some 0) recState recJob
      (by decide) (by decide) (by decide) (by decide)⟩

/-- `startRecording` for one job leaves the rows of every other job in place. -/
theorem startRecording_jobs_frame (env : RecEnv) (pid : Nat) (j : Job) (s : DvrState)
    (jrow : Job) (hne2 : jrow.id ≠ j.id) (hmem : jrow ∈ s.jobs) :
    jrow ∈ (startRecording env pid j s).1.jobs := by
  rcases hch : findChannel env j with _ | ch
  · rw [startRecording_error_case env pid j s (Or.inl hch)]
    exact updated_mem_ne _ _ hmem hne2
  · rcases hpr : findActiveRecProfile env with _ | pr
    · rw [startRecording_error_case env pid j s (Or.inr (Or.inl hpr))]
      exact updated_mem_ne _ _ hmem hne2
    · rcases hua : findJobUserAgent env j with _ | ua
      · rw [startRecording_error_case env pid j s (Or.inr (Or.inr hua))]
        exact updated_mem_ne _ _ hmem hne2
      · rw [startRecording_success_case env pid j s ch pr ua hch hpr hua]
        exact updated_mem_ne _ _ hmem hne2

/-- Scheduling one job leaves another job's row and armed triggers untouched. -/
theorem scheduleDvrJob_frame (env : RecEnv) (pid : Nat) (now : Int) (j : Job)
    (s : DvrState) (tid : Nat) (hne : j.id ≠ tid) (jrow : Job) (hrow : jrow.id = tid)
    (hmem : jrow ∈ s.jobs) (hst : tid ∉ s.startTimers) (hsp : tid ∉ s.stopTimers) :
    jrow ∈ (scheduleDvrJob env pid now j s).1.jobs ∧
    tid ∉ (scheduleDvrJob env pid now j s).1.startTimers ∧
    tid ∉ (scheduleDvrJob env pid now j s).1.stopTimers := by
  have hne2 : jrow.id ≠ j.id := by
    rw [hrow]
    exact fun h => hne h.symm
  have hstfil : tid ∉ s.startTimers.filter (fun i => ! (i == j.id)) := fun hm =>
    hst (List.mem_filter.mp hm).1
  simp only [scheduleDvrJob]
  split
  · split
    · exact ⟨updated_mem_ne _ _ hmem hne2, hstfil, hsp⟩
    · exact ⟨hmem, hstfil, hsp⟩
  · split
    · refine ⟨hmem, ?_, ?_⟩
      · intro hm
        rcases List.mem_append.mp hm with hm | hm
        · exact hstfil hm
        · rw [List.mem_singleton] at hm
          exact hne hm.symm
      · intro hm
        rcases List.mem_append.mp hm with hm | hm
        · exact hsp hm
        · rw [List.mem_singleton] at hm
          exact hne hm.symm
    · refine ⟨startRecording_jobs_frame env pid j _ jrow hne2 hmem, ?_, ?_⟩
      · rw [startRecording_startTimers]
        exact hstfil
      · intro hm
        rw [startRecording_stopTimers] at hm
        rcases List.mem_append.mp hm with hm | hm
        · exact hsp hm
        · rw [List.mem_singleton] at hm
          exact hne hm.symm

/-- The scheduling pass of `loadAndScheduleAllDvrJobs` over a batch of jobs
whose ids all differ from `tid` never touches the row with id `tid` and never
arms a trigger for it. -/
theorem foldSched_frame (env : RecEnv) (pidFor : Nat → Nat) (now : Int) (tid : Nat)
    (L : List Job) :
    (∀ j ∈ L, j.id ≠ tid) → ∀ acc : DvrState × List Event, ∀ jrow : Job,
      jrow.id = tid → jrow ∈ acc.1.jobs → tid ∉ acc.1.startTimers → tid ∉ acc.1.stopTimers →
      jrow ∈ (L.foldl (fun acc j =>
          let r := scheduleDvrJob env (pidFor j.id) now j acc.1
          (r.1, acc.2 ++ r.2)) acc).1.jobs ∧
      tid ∉ (L.foldl (fun acc j =>
          let r := scheduleDvrJob env (pidFor j.id) now j acc.1
          (r.1, acc.2 ++ r.2)) acc).1.startTimers ∧
      tid ∉ (L.foldl (fun acc j =>
          let r := scheduleDvrJob env (pidFor j.id) now j acc.1
          (r.1, acc.2 ++ r.2)) acc).1.stopTimers := by
  induction L with
  | nil =>
    intro _ acc jrow _ hmem hst hsp
    exact ⟨hmem, hst, hsp⟩
  | cons j L ih =>
    intro hL acc jrow hrow hmem hst hsp
    simp only [List.foldl_cons]
    have hframe := scheduleDvrJob_frame env (pidFor j.id) now j acc.1 tid
      (hL j (List.mem_cons_self j L)) jrow hrow hmem hst hsp
    exact ih (fun x hx => hL x (List.mem_cons_of_mem j hx)) _ jrow hrow
      hframe.1 hframe.2.1 hframe.2.2

/-- C6: startup reconciliation first flips every `recording` row to `error`;
only rows still `scheduled` are then passed to schedule, so a force-flipped row
is still `error` afterwards, is never re-armed, and has no armed start or stop
trigger (the in-memory timer sets are empty at boot). -/
theorem C6_startup_reconciliation (env : RecEnv) (pidFor : Nat → Nat) (now : Int)
    (s : DvrState) (j0 : Job) (hj0 : j0 ∈ s.jobs) (hrec : j0.status = JobStatus.recording)
    (hnodup : (s.jobs.map Job.id).Nodup)
    (hst0 : s.startTimers = []) (hsp0 : s.stopTimers = []) :
    { j0 with status := JobStatus.error } ∈ (loadAndScheduleAllDvrJobs env pidFor now s).1.jobs ∧
    j0.id ∉ (loadAndScheduleAllDvrJobs env pidFor now s).1.startTimers ∧
    j0.id ∉ (loadAndScheduleAllDvrJobs env pidFor now s).1.stopTimers := by
  have hL : ∀ j ∈ (reconcileRecordingRows s.jobs).filter
      (fun j => j.status == JobStatus.scheduled), j.id ≠ j0.id := by
    intro j hjmem heq
    have hmf := List.mem_filter.mp hjmem
    have hsched : j.status = JobStatus.scheduled := by simpa using hmf.2
    rcases List.mem_map.mp hmf.1 with ⟨ja, hja, hjaeq⟩
    have hid : ja.id = j0.id := by
      rw [← heq, ← hjaeq]
      by_cases hs : ja.status = JobStatus.recording
      · rw [if_pos hs]
      · rw [if_neg hs]
    have hjaj0 : ja = j0 := List.inj_on_of_nodup_map hnodup hja hj0 hid
    rw [hjaj0, if_pos hrec] at hjaeq
    rw [← hjaeq] at hsched
    simp at hsched
  have hmem1 : { j0 with status := JobStatus.error } ∈ reconcileRecordingRows s.jobs :=
    List.mem_map.mpr ⟨j0, hj0, by rw [if_pos hrec]⟩
  simp only [loadAndScheduleAllDvrJobs]
  exact foldSched_frame env pidFor now j0.id _ hL
    ({ s with jobs := reconcileRecordingRows s.jobs }, []) _ rfl hmem1
    (by simp [hst0]) (by simp [hsp0])

/-- C6 witness: a state with the recording row `recJob` and a second scheduled
row, reconciled at boot. -/
theorem C6_startup_reconciliation_witness :
    recJob ∈ ({ jobs := [recJob, { jobA with id := 2 }], recordings := [],
                registry := [], startTimers := [], stopTimers := [],
                files := [] } : DvrState).jobs ∧
    recJob.status = JobStatus.recording ∧
    ((({ jobs := [recJob, { jobA with id := 2 }], recordings := [], registry := [],
         startTimers := [], stopTimers := [], files := [] } : DvrState).jobs.map Job.id).Nodup) ∧
    ({ recJob with status := JobStatus.error } ∈
        (loadAndScheduleAllDvrJobs envNoConfig (fun _ => 9) 0
          { jobs := [recJob, { jobA with id := 2 }], recordings := [], registry := [],
            startTimers := [], stopTimers := [], files := [] }).1.jobs ∧
      recJob.id ∉ (loadAndScheduleAllDvrJobs envNoConfig (fun _ => 9) 0
          { jobs := [recJob, { jobA with id := 2 }], recordings := [], registry := [],
            startTimers := [], stopTimers := [], files := [] }).1.startTimers ∧
      recJob.id ∉ (loadAndScheduleAllDvrJobs envNoConfig (fun _ => 9) 0
          { jobs := [recJob, { jobA with id := 2 }], recordings := [], registry := [],
            startTimers := [], stopTimers := [], files := [] }).1.stopTimers) :=
  ⟨by decide, by decide, by decide,
    C6_startup_reconciliation envNoConfig (fun _ => 9) 0 _ recJob (by decide) (by decide)
      (by decide) rfl rfl⟩

/-- Membership characterization of the recording-row id list. -/
theorem mem_recIdsOf {jobs : List Job} {n : Nat} :
    n ∈ recIdsOf jobs ↔ ∃ j ∈ jobs, j.id = n ∧ j.status = JobStatus.recording := by
  unfold recIdsOf
  constructor
  · intro h
    rcases List.mem_map.mp h with ⟨j, hj, rfl⟩
    have hf := List.mem_filter.mp hj
    exact ⟨j, hf.1, rfl, by simpa using hf.2⟩
  · rintro ⟨j, hj, rfl, hst⟩
    exact List.mem_map.mpr ⟨j, List.mem_filter.mpr ⟨hj, by simpa using hst⟩, rfl⟩

/-- Membership in the key list after a registry delete. -/
theorem mem_registryIds_delA {k n : Nat} {reg : List (Nat × Nat)} :
    n ∈ (delA k reg).map Prod.fst ↔ n ∈ reg.map Prod.fst ∧ n ≠ k := by
  unfold delA
  constructor
  · intro h
    rcases List.mem_map.mp h with ⟨p, hp, rfl⟩
    have hf := List.mem_filter.mp hp
    refine ⟨List.mem_map.mpr ⟨p, hf.1, rfl⟩, ?_⟩
    simpa using hf.2
  · rintro ⟨h, hne⟩
    rcases List.mem_map.mp h with ⟨p, hp, rfl⟩
    exact List.mem_map.mpr ⟨p, List.mem_filter.mpr ⟨hp, by simpa using hne⟩, rfl⟩

/-- Membership in the key list after a registry insert. -/
theorem mem_ids_setA {k v n : Nat} {reg : List (Nat × Nat)} :
    n ∈ (setA k v reg).map Prod.fst ↔ n = k ∨ n ∈ reg.map Prod.fst := by
  induction reg with
  | nil =>
    simp [setA, eq_comm]
  | cons p rest ih =>
    by_cases hpk : p.1 = k
    · simp [setA, hpk, eq_comm]
    · have hb : (p.1 == k) = false := by simpa using hpk
      simp only [setA, hb, Bool.false_eq_true, if_false, List.map_cons, List.mem_cons, ih]
      tauto

/-- Recording-row ids after a status update that clears the pid: the targeted
id is removed (when the new status is not recording), others are untouched. -/
theorem mem_recIdsOf_clearPid {jobId : Nat} {st : JobStatus}
    (hst : st ≠ JobStatus.recording) {jobs : List Job} {n : Nat} :
    n ∈ recIdsOf (setStatusClearPid jobId st jobs) ↔ n ∈ recIdsOf jobs ∧ n ≠ jobId := by
  constructor
  · intro h
    rcases mem_recIdsOf.mp h with ⟨j2, hj2, hid2, hst2⟩
    unfold setStatusClearPid updateRows at hj2
    rcases List.mem_map.mp hj2 with ⟨j0, hj0, heq⟩
    by_cases h0 : j0.id = jobId
    · rw [if_pos h0] at heq
      rw [← heq] at hst2
      exact absurd hst2 (by simpa using hst)
    · rw [if_neg h0] at heq
      rw [← heq] at hid2 hst2
      refine ⟨mem_recIdsOf.mpr ⟨j0, hj0, hid2, hst2⟩, ?_⟩
      rw [← hid2]
      exact h0
  · rintro ⟨h, hne⟩
    rcases mem_recIdsOf.mp h with ⟨j0, hj0, hid0, hst0⟩
    refine mem_recIdsOf.mpr ⟨j0, ?_, hid0, hst0⟩
    exact updated_mem_ne _ _ hj0 (by rw [hid0]; exact hne)

/-- Recording-row ids after the recording-row update: the targeted id joins the
set (it has a row), others are untouched. -/
theorem mem_recIdsOf_setRecordingRow {jobId pid : Nat} {fp : String} {jobs : List Job}
    {n : Nat} (hexists : ∃ j ∈ jobs, j.id = jobId) :
    n ∈ recIdsOf (setRecordingRow jobId pid fp jobs) ↔ n = jobId ∨ n ∈ recIdsOf jobs := by
  constructor
  · intro h
    rcases mem_recIdsOf.mp h with ⟨j2, hj2, hid2, hst2⟩
    unfold setRecordingRow updateRows at hj2
    rcases List.mem_map.mp hj2 with ⟨j0, hj0, heq⟩
    by_cases h0 : j0.id = jobId
    · left
      rw [← hid2, ← heq, if_pos h0]
      exact h0
    · right
      rw [if_neg h0] at heq
      rw [← heq] at hid2 hst2
      exact mem_recIdsOf.mpr ⟨j0, hj0, hid2, hst2⟩
  · intro h
    rcases h with rfl | h
    · rcases hexists with ⟨j0, hj0, hid0⟩
      refine mem_recIdsOf.mpr
        ⟨{ j0 with status := JobStatus.recording, ffmpeg_pid := some pid, filePath := some fp },
          updated_mem n _ hj0 hid0, hid0, rfl⟩
    · rcases mem_recIdsOf.mp h with ⟨j0, hj0, hid0, hst0⟩
      by_cases h0 : j0.id = jobId
      · refine mem_recIdsOf.mpr
          ⟨{ j0 with status := JobStatus.recording, ffmpeg_pid := some pid, filePath := some fp },
            updated_mem jobId _ hj0 h0, hid0, rfl⟩
      · exact mem_recIdsOf.mpr ⟨j0, updated_mem_ne _ _ hj0 h0, hid0, hst0⟩

/-- The registry after the exit handler: the job's key deleted. -/
theorem ffmpegOnClose_registry (job : Job) (fp : String) (code : Option Int) (s : DvrState) :
    (ffmpegOnClose job fp code s).registry = delA job.id s.registry := by
  rcases hstat : fileStat fp s.files with _ | sz
  · simp only [ffmpegOnClose, hstat]
  · simp only [ffmpegOnClose, hstat]
    by_cases hcond : code = some 0 ∧ 0 < sz
    · rw [if_pos hcond]
    · rw [if_neg hcond]

/-- The job rows after the exit handler: the job's row flipped to a terminal
non-recording status (completed or error) with the pid cleared. -/
theorem ffmpegOnClose_jobs (job : Job) (fp : String) (code : Option Int) (s : DvrState) :
    ∃ st, st ≠ JobStatus.recording ∧
      (ffmpegOnClose job fp code s).jobs = setStatusClearPid job.id st s.jobs := by
  rcases hstat : fileStat fp s.files with _ | sz
  · exact ⟨JobStatus.error, by simp, by simp only [ffmpegOnClose, hstat]⟩
  · by_cases hcond : code = some 0 ∧ 0 < sz
    · exact ⟨JobStatus.completed, by simp, by simp only [ffmpegOnClose, hstat]; rw [if_pos hcond]⟩
    · exact ⟨JobStatus.error, by simp, by simp only [ffmpegOnClose, hstat]; rw [if_neg hcond]⟩

/-- The exit handler preserves registry/recording-row consistency. -/
theorem ffmpegOnClose_regMatch (job : Job) (fp : String) (code : Option Int) (s : DvrState)
    (hinv : registryMatchesRecording s) :
    registryMatchesRecording (ffmpegOnClose job fp code s) := by
  rcases ffmpegOnClose_jobs job fp code s with ⟨st, hst, hjobs⟩
  intro n
  show n ∈ (ffmpegOnClose job fp code s).registry.map Prod.fst
    ↔ n ∈ recIdsOf (ffmpegOnClose job fp code s).jobs
  rw [ffmpegOnClose_registry, hjobs, mem_registryIds_delA, mem_recIdsOf_clearPid hst]
  exact ⟨fun h => ⟨(hinv n).mp h.1, h.2⟩, fun h => ⟨(hinv n).mpr h.1, h.2⟩⟩

/-- The spawn-failure handler preserves registry/recording-row consistency. -/
theorem ffmpegOnError_regMatch (job : Job) (s : DvrState)
    (hinv : registryMatchesRecording s) :
    registryMatchesRecording (ffmpegOnError job s) := by
  intro n
  show n ∈ (delA job.id s.registry).map Prod.fst
    ↔ n ∈ recIdsOf (setStatusClearPid job.id JobStatus.error s.jobs)
  rw [mem_registryIds_delA, mem_recIdsOf_clearPid (by simp)]
  exact ⟨fun h => ⟨(hinv n).mp h.1, h.2⟩, fun h => ⟨(hinv n).mpr h.1, h.2⟩⟩

/-- `startRecording` preserves registry/recording-row consistency when the job
has a stored row and all its stored rows are still `scheduled`. -/
theorem startRecording_regMatch (env : RecEnv) (pid : Nat) (job : Job) (s : DvrState)
    (hinv : registryMatchesRecording s)
    (hsched : ∀ j2 ∈ s.jobs, j2.id = job.id → j2.status = JobStatus.scheduled)
    (hexists : ∃ j2 ∈ s.jobs, j2.id = job.id) :
    registryMatchesRecording (startRecording env pid job s).1 := by
  have hnorec : job.id ∉ recIdsOf s.jobs := by
    intro h
    rcases mem_recIdsOf.mp h with ⟨j0, hj0, hid0, hst0⟩
    rw [hsched j0 hj0 hid0] at hst0
    simp at hst0
  have herrcase : ∀ t : DvrState × List Event,
      t = ({ s with jobs := setStatusClearPid job.id JobStatus.error s.jobs },
        [Event.startInvoked job.id]) → registryMatchesRecording t.1 := by
    rintro t rfl
    intro n
    show n ∈ s.registry.map Prod.fst
      ↔ n ∈ recIdsOf (setStatusClearPid job.id JobStatus.error s.jobs)
    rw [mem_recIdsOf_clearPid (by simp)]
    constructor
    · intro h
      refine ⟨(hinv n).mp h, ?_⟩
      rintro rfl
      exact hnorec ((hinv job.id).mp h)
    · intro h
      exact (hinv n).mpr h.1
  rcases hch : findChannel env job with _ | ch
  · exact herrcase _ (startRecording_error_case env pid job s (Or.inl hch))
  · rcases hpr : findActiveRecProfile env with _ | pr
    · exact herrcase _ (startRecording_error_case env pid job s (Or.inr (Or.inl hpr)))
    · rcases hua : findJobUserAgent env job with _ | ua
      · exact herrcase _ (startRecording_error_case env pid job s (Or.inr (Or.inr hua)))
      · rw [startRecording_success_case env pid job s ch pr ua hch hpr hua]
        intro n
        show n ∈ (setA job.id pid s.registry).map Prod.fst
          ↔ n ∈ recIdsOf (setRecordingRow job.id pid (fullFilePathFor job) s.jobs)
        rw [mem_ids_setA, mem_recIdsOf_setRecordingRow hexists]
        exact ⟨fun h => h.elim Or.inl (fun h2 => Or.inr ((hinv n).mp h2)),
          fun h => h.elim Or.inl (fun h2 => Or.inr ((hinv n).mpr h2))⟩

/-- C7 amended: registry/recording-row consistency is preserved by the
recorder's own transitions (start, exit handler, spawn-failure handler), but
user cancellation of a currently recording job breaks it: the row becomes
`cancelled` while the registry keeps the job's pid until the process exits. -/
theorem C7_amended (env : RecEnv) (pid : Nat) (job : Job) (fp : String) (code : Option Int)
    (s : DvrState) (userId : Nat) (j : Job)
    (hinv : registryMatchesRecording s)
    (hsched : ∀ j2 ∈ s.jobs, j2.id = job.id → j2.status = JobStatus.scheduled)
    (hexists : ∃ j2 ∈ s.jobs, j2.id = job.id)
    (hj : j ∈ s.jobs) (hrec : j.status = JobStatus.recording)
    (howner : ∀ j2 ∈ s.jobs, j2.id = j.id → j2.user_id = userId) :
    registryMatchesRecording (startRecording env pid job s).1 ∧
    registryMatchesRecording (ffmpegOnClose job fp code s) ∧
    registryMatchesRecording (ffmpegOnError job s) ∧
    ¬ registryMatchesRecording (deleteDvrJobRoute j.id userId s).1 := by
  refine ⟨startRecording_regMatch env pid job s hinv hsched hexists,
    ffmpegOnClose_regMatch job fp code s hinv, ffmpegOnError_regMatch job s hinv, ?_⟩
  intro hpost
  have hjin : j.id ∈ recordingIds s := mem_recIdsOf.mpr ⟨j, hj, rfl, hrec⟩
  have hreg : j.id ∈ registryIds s := (hinv j.id).mpr hjin
  have hrec2 := (hpost j.id).mp hreg
  have hrec3 : j.id ∈ recIdsOf (setCancelledOwned j.id userId s.jobs) := hrec2
  rcases mem_recIdsOf.mp hrec3 with ⟨j2, hj2, hid2, hst2⟩
  unfold setCancelledOwned at hj2
  rcases List.mem_map.mp hj2 with ⟨j0, hj0, heq⟩
  by_cases h0 : j0.id = j.id ∧ j0.user_id = userId
  · rw [if_pos h0] at heq
    rw [← heq] at hst2
    simp at hst2
  · rw [if_neg h0] at heq
    rw [← heq] at hid2
    exact h0 ⟨hid2, howner j0 hj0 hid2⟩

/-- A concrete consistent state with one recording job (id 1, registered pid 7)
and one scheduled job (id 2). -/
def c7State : DvrState :=
  { jobs := [recJob, { jobA with id := 2 }], recordings := [], registry := [(1, 7)],
    startTimers := [], stopTimers := [1], files := [] }

/-- C7 amended witness: the concrete state `c7State`. -/
theorem C7_amended_witness :
    registryMatchesRecording c7State ∧
    (∀ j2 ∈ c7State.jobs, j2.id = 2 → j2.status = JobStatus.scheduled) ∧
    recJob ∈ c7State.jobs ∧ recJob.status = JobStatus.recording ∧
    (registryMatchesRecording (startRecording envNoConfig 9 { jobA with id := 2 } c7State).1 ∧
      registryMatchesRecording (ffmpegOnClose { jobA with id := 2 } "/dvr/2_show.mp4"
        (some 0) c7State) ∧
      registryMatchesRecording (ffmpegOnError { jobA with id := 2 } c7State) ∧
      ¬ registryMatchesRecording (deleteDvrJobRoute recJob.id 1 c7State).1) :=
  ⟨by decide, by decide, by decide, by decide,
    C7_amended envNoConfig 9 { jobA with id := 2 } "/dvr/2_show.mp4" (some 0) c7State 1 recJob
      (by decide) (by decide) ⟨{ jobA with id := 2 }, by decide, rfl⟩
      (by decide) (by decide) (by decide)⟩

/-- Splitting on a separator produces pieces that never contain the separator. -/
theorem splitOnChar_not_mem_sep (sep : Char) :
    ∀ (l : List Char) (t : List Char), t ∈ splitOnChar sep l → sep ∉ t := by
  intro l
  induction l with
  | nil =>
    intro t ht
    have : t = [] := by simpa [splitOnChar] using ht
    rw [this]
    exact List.not_mem_nil sep
  | cons c rest ih =>
    intro t ht
    by_cases hc : c = sep
    · rw [splitOnChar, if_pos hc] at ht
      rcases List.mem_cons.mp ht with rfl | htl
      · exact List.not_mem_nil sep
      · exact ih t htl
    · rw [splitOnChar, if_neg hc] at ht
      rcases hsp : splitOnChar sep rest with _ | ⟨t0, ts⟩
      · rw [hsp] at ht
        rw [List.mem_singleton] at ht
        rw [ht]
        intro hm
        rw [List.mem_singleton] at hm
        exact hc hm.symm
      · rw [hsp] at ht
        rcases List.mem_cons.mp ht with rfl | htl
        · intro hm
          rcases List.mem_cons.mp hm with hm | hm
          · exact hc hm.symm
          · exact ih t0 (by rw [hsp]; exact List.mem_cons_self t0 ts) hm
        · exact ih t (by rw [hsp]; exact List.mem_cons_of_mem t0 htl)

/-- Every token the command tokenizer produces is free of spaces, so a resolved
value containing a space can never survive as a single argument. -/
theorem tokenize_no_space (t tok : String) (htok : tok ∈ tokenize t) :
    ' ' ∉ tok.data := by
  unfold tokenize at htok
  have h1 := (List.mem_filter.mp htok).1
  rcases List.mem_map.mp h1 with ⟨cs, hcs, rfl⟩
  exact splitOnChar_not_mem_sep ' ' t.data cs hcs

/-- The tokenizer drops empty tokens (the code's `filter(arg => arg)`). -/
theorem tokenize_no_empty (t : String) : "" ∉ tokenize t := by
  intro hmem
  have h2 := (List.mem_filter.mp hmem).2
  simp at h2

/-- C9 amended: materialization substitutes the three placeholders and then
tokenizes by splitting on single spaces, dropping empty tokens; the resulting
vector is executed without a shell; but every produced argument is space-free,
so a resolved value containing spaces is torn across several adjacent argument
positions instead of occupying exactly the positions of its placeholder. -/
theorem C9_amended :
    (∀ t : String, (spawnCallFor t).shell = false) ∧
    (∀ t tok : String, tok ∈ tokenize t → ' ' ∉ tok.data) ∧
    (∀ t : String, "" ∉ tokenize t) ∧
    tokenize (substTemplate "a {userAgent} b" "u" "Moz 5.0" "f") = ["a", "Moz", "5.0", "b"] :=
  ⟨fun _ => rfl, tokenize_no_space, tokenize_no_empty, by decide⟩

/-- C9 amended witness: a concrete token of a concrete materialized template. -/
theorem C9_amended_witness :
    (spawnCallFor "a b").shell = false ∧
    "Moz" ∈ tokenize (substTemplate "a {userAgent} b" "u" "Moz 5.0" "f") ∧
    ' ' ∉ ("Moz" : String).data :=
  ⟨C9_amended.1 "a b", by decide,
    C9_amended.2.1 (substTemplate "a {userAgent} b" "u" "Moz 5.0" "f") "Moz" (by decide)⟩

end ViniPlay
